import Mathlib

/-!
Verification development for the shawarma food-ordering platform.

The definitions below are a shallow embedding of the backend order /
delivery-zone routes (`src/backend/src/routes/orders.ts`,
`src/backend/src/routes/deliveryZones.ts`, `src/backend/src/models/Order.ts`)
and of the client-side notification and polling modules
(`src/frontend/src/context/NotificationContext.tsx`, the sync service).
Prices are currency minor-unit integers (`Nat`, the schemas enforce
non-negativity); timestamps are millisecond counts (`Int`).
-/

namespace Shawarma

/-! ## Delivery-zone data model (models/DeliveryZone, routes/deliveryZones.ts) -/

/-- One entry of a zone's `neighborhoods` array: name, owning city,
availability flag. -/
structure Neighborhood where
  name : String
  city : String
  available : Bool
deriving Repr, DecidableEq

/-- A delivery zone document: display name, city set, neighborhood list,
fixed fee, estimated minutes, zone-level availability flag. -/
structure DeliveryZone where
  name : String
  cities : List String
  neighborhoods : List Neighborhood
  deliveryFee : Nat
  estimatedTime : Nat
  available : Bool
deriving Repr, DecidableEq

/-- The filter used by `POST /api/delivery-zones/calculate-fee` (and by the
order-creation route), with MongoDB semantics: `cities: city` holds when the
array contains the value, and each dotted condition on the `neighborhoods`
array (`neighborhoods.city`, `neighborhoods.name`, `neighborhoods.available`)
is satisfied when SOME array element satisfies it — the query has no
`$elemMatch`, so the three conditions may be witnessed by different
elements. -/
def zoneMatches (z : DeliveryZone) (city neighborhood : String) : Bool :=
  z.available
    && z.cities.contains city
    && z.neighborhoods.any (fun n => n.city == city)
    && z.neighborhoods.any (fun n => n.name == neighborhood)
    && z.neighborhoods.any (fun n => n.available)

/-- `DeliveryZone.findOne(filter)`: the first document of the collection
(in its iteration order) satisfying the filter. -/
def findOneZone (zones : List DeliveryZone) (city neighborhood : String) :
    Option DeliveryZone :=
  zones.find? (fun z => zoneMatches z city neighborhood)

/-- Payload returned by the calculate-fee route on success. -/
structure FeeResult where
  deliveryFee : Nat
  estimatedTime : Nat
  zoneName : String
deriving Repr, DecidableEq

/-- The `POST /api/delivery-zones/calculate-fee` handler: `none` is the
404 "Delivery not available for this location" (NotServiceable) outcome. -/
def calculateFee (zones : List DeliveryZone) (city neighborhood : String) :
    Option FeeResult :=
  (findOneZone zones city neighborhood).map
    (fun z => ⟨z.deliveryFee, z.estimatedTime, z.name⟩)

/-- Modelled from the spec (for comparison with `zoneMatches`): the zone is
available, has the requested city in its city set, and has a SINGLE
neighborhood entry whose city, name and availability all match — the
Zone Resolver contract of spec §4.1. -/
def zoneServes (z : DeliveryZone) (city neighborhood : String) : Bool :=
  z.available
    && z.cities.contains city
    && z.neighborhoods.any
        (fun n => n.city == city && n.name == neighborhood && n.available)

/-! ## Catalog data model (models/Product.ts) -/

/-- One entry of a product's embedded `toppings` array. -/
structure Topping where
  tid : String
  name : String
  price : Nat
  available : Bool
deriving Repr, DecidableEq

/-- One entry of a product's `sizeVariations` array: identifier, display
name, price delta, per-size availability flag. -/
structure SizeVariation where
  size : String
  name : String
  price : Nat
  available : Bool
deriving Repr, DecidableEq

/-- A product document (the fields the order routes read). -/
structure Product where
  pid : String
  name : String
  basePrice : Nat
  sizeVariations : List SizeVariation
  toppings : List Topping
  available : Bool
deriving Repr, DecidableEq

/-- `Product.findById`. -/
def findProduct (catalog : List Product) (productId : String) : Option Product :=
  catalog.find? (fun p => p.pid == productId)

/-! ## Order creation (POST /api/orders in routes/orders.ts) -/

/-- One element of the request body's `items` array (after express-validator:
quantity is an integer at least 1, size a non-empty string). -/
structure OrderItemReq where
  productId : String
  quantity : Nat
  size : String
  selectedToppings : List String
deriving Repr, DecidableEq

/-- The request's `deliveryAddress` object (validated fields). -/
structure DeliveryAddress where
  street : String
  neighborhood : String
  city : String
  phone : String
deriving Repr, DecidableEq

/-- The distinct 400-level failure branches of the create-order handler,
plus the delivery-zone failure. `sizeNotFound` carries the enumerated size
identifiers that the handler interpolates into its message. -/
inductive OrderError where
  | productNotFound (productId : String)
  | productUnavailable (productName : String)
  | sizeNotFound (size productName : String) (availableSizes : List String)
  | sizeUnavailable (size productName : String)
  | notServiceable (neighborhood city : String)
deriving Repr, DecidableEq

/-- A captured topping on a persisted order item (name/price snapshot). -/
structure CapturedTopping where
  name : String
  price : Nat
deriving Repr, DecidableEq

/-- A persisted order item (models/Order.ts `OrderItemSchema`, as filled in
by the handler). -/
structure OrderItem where
  product : String
  productName : String
  productPrice : Nat
  quantity : Nat
  size : String
  selectedToppings : List CapturedTopping
  itemTotal : Nat
deriving Repr, DecidableEq

/-- Order status enumeration (models/Order.ts). -/
inductive OrderStatus where
  | pending
  | confirmed
  | preparing
  | ready
  | out_for_delivery
  | delivered
  | cancelled
deriving Repr, DecidableEq

/-- A persisted order (the fields the claims are about). Timestamps are
millisecond counts; `actualDeliveryTime` is unset at creation. -/
structure Order where
  items : List OrderItem
  subtotal : Nat
  deliveryFee : Nat
  total : Nat
  status : OrderStatus
  deliveryAddress : DeliveryAddress
  actualDeliveryTime : Option Int
deriving Repr, DecidableEq

/-- The handler's toppings loop: each requested topping id is looked up in
the product's own embedded `toppings` list; a topping that is found and
available contributes its price to `toppingsPrice` and a name/price pair to
`selectedToppings`; otherwise the id is skipped. Returns
`(toppingsPrice, selectedToppings)`. -/
def toppingsSelection (p : Product) : List String → Nat × List CapturedTopping
  | [] => (0, [])
  | toppingId :: rest =>
    match p.toppings.find? (fun t => t.tid == toppingId) with
    | some t =>
      if t.available then
        let r := toppingsSelection p rest
        (t.price + r.1, ⟨t.name, t.price⟩ :: r.2)
      else toppingsSelection p rest
    | none => toppingsSelection p rest

/-- One iteration of the handler's `for (const item of items)` loop:
product lookup, product availability, size lookup (with enumerated sizes in
the error), size availability, toppings pricing, line total. -/
def processItem (catalog : List Product) (item : OrderItemReq) :
    Except OrderError OrderItem :=
  match findProduct catalog item.productId with
  | none => .error (.productNotFound item.productId)
  | some product =>
    if !product.available then
      .error (.productUnavailable product.name)
    else
      match product.sizeVariations.find? (fun sv => sv.size == item.size) with
      | none =>
        .error (.sizeNotFound item.size product.name
          (product.sizeVariations.map (fun sv => sv.size)))
      | some sizeVariation =>
        if !sizeVariation.available then
          .error (.sizeUnavailable item.size product.name)
        else
          .ok
            { product := item.productId
              productName := product.name
              productPrice := product.basePrice
              quantity := item.quantity
              size := item.size
              selectedToppings := (toppingsSelection product item.selectedToppings).2
              itemTotal :=
                (product.basePrice + sizeVariation.price
                  + (toppingsSelection product item.selectedToppings).1)
                  * item.quantity }

/-- The whole loop: the first failing item aborts the operation. -/
def processItems (catalog : List Product) :
    List OrderItemReq → Except OrderError (List OrderItem)
  | [] => .ok []
  | item :: rest =>
    match processItem catalog item with
    | .error e => .error e
    | .ok oi =>
      match processItems catalog rest with
      | .error e => .error e
      | .ok l => .ok (oi :: l)

/-- The create-order handler after validation: process every item, resolve
the delivery zone with the same filter as calculate-fee, then build the
order with `subtotal` the running sum of line totals, `deliveryFee` the
zone's fee, and `total = subtotal + deliveryFee`. Status starts `pending`
and `actualDeliveryTime` unset. -/
def createOrder (catalog : List Product) (zones : List DeliveryZone)
    (items : List OrderItemReq) (addr : DeliveryAddress) :
    Except OrderError Order :=
  match processItems catalog items with
  | .error e => .error e
  | .ok orderItems =>
    match findOneZone zones addr.city addr.neighborhood with
    | none => .error (.notServiceable addr.neighborhood addr.city)
    | some zone =>
      let subtotal := (orderItems.map (fun oi => oi.itemTotal)).sum
      .ok
        { items := orderItems
          subtotal := subtotal
          deliveryFee := zone.deliveryFee
          total := subtotal + zone.deliveryFee
          status := .pending
          deliveryAddress := addr
          actualDeliveryTime := none }

/-! ## Status updates (PUT /api/orders/:id/status in routes/orders.ts) -/

/-- The status-update handler's effect on an order: `updateData` always
carries the requested status, and additionally stamps
`actualDeliveryTime = now` exactly when the target status is `delivered`;
`findByIdAndUpdate` applies it unconditionally to the stored order. -/
def updateOrderStatus (o : Order) (target : OrderStatus) (now : Int) : Order :=
  { o with
    status := target
    actualDeliveryTime :=
      if target = .delivered then some now else o.actualDeliveryTime }

/-! ## Client notifications (frontend NotificationContext.tsx)

Timestamps are millisecond counts (`Int`). `Option String` models fields
that may be absent in the JavaScript objects (`undefined`); JavaScript's
truthiness test on a string field is false for both `undefined` and the
empty string. -/

/-- A client-local notification entry. -/
structure Notification where
  nid : Int
  ntype : String
  title : String
  message : String
  orderNumber : Option String
  isRead : Bool
  createdAt : Int
  userId : Option String
  targetRole : Option String
  priority : String
deriving Repr, DecidableEq

/-- The argument of `addNotification` (a notification without `_id`,
`isRead`, `createdAt`). -/
structure NotifInput where
  ntype : String
  title : String
  message : String
  orderNumber : Option String
  userId : Option String
  targetRole : Option String
  priority : String
deriving Repr, DecidableEq

/-- JavaScript truthiness of an optional string: `undefined` and the empty
string are falsy. -/
def strTruthy : Option String → Bool
  | none => false
  | some s => !(s == "")

/-- The role-targeting check of `addNotification`: the target role (default
`all`) is `all`, or matches the session's role, or the notification names
the session's user id. -/
def shouldShow (userRole userIdStr : String) (d : NotifInput) : Bool :=
  let targetRole := match d.targetRole with
    | some r => if r == "" then "all" else r
    | none => "all"
  targetRole == "all"
    || (targetRole == "admin" && userRole == "admin")
    || (targetRole == "customer" && userRole == "customer")
    || (strTruthy d.userId && d.userId == some userIdStr)

/-- The deduplication check of `addNotification`: some existing entry has
the same order number, the same type, and `createdAt` strictly later than
`now - 60000` ms. -/
def isDuplicate (notifs : List Notification) (d : NotifInput) (now : Int) : Bool :=
  notifs.any (fun n =>
    n.orderNumber == d.orderNumber
      && n.ntype == d.ntype
      && n.createdAt > now - 60000)

/-- The notification built and prepended by `addNotification`. -/
def mkNotification (d : NotifInput) (now : Int) : Notification :=
  { nid := now
    ntype := d.ntype
    title := d.title
    message := d.message
    orderNumber := d.orderNumber
    isRead := false
    createdAt := now
    userId := d.userId
    targetRole := d.targetRole
    priority := d.priority }

/-- `addNotification`, as a function of the current list: drop the candidate
when role targeting rejects it or the deduplication window suppresses it;
otherwise prepend the new entry. No pruning happens here. -/
def addNotification (userRole userIdStr : String) (notifs : List Notification)
    (d : NotifInput) (now : Int) : List Notification :=
  if !(shouldShow userRole userIdStr d) then notifs
  else if isDuplicate notifs d now then notifs
  else mkNotification d now :: notifs

/-- The load-on-mount effect: keep the parsed entries whose creation day is
the current day, then truncate to the first 50. `day` maps a timestamp to
the start of its calendar day (`setHours(0,0,0,0)`). -/
def loadNotifications (day : Int → Int) (parsed : List Notification)
    (now : Int) : List Notification :=
  (parsed.filter (fun n => day n.createdAt == day now)).take 50

/-- The periodic cleanup sweep (every 60 s): keep only the entries whose
creation day is the current day. No length cap is applied. -/
def cleanupSweep (day : Int → Int) (notifs : List Notification)
    (now : Int) : List Notification :=
  notifs.filter (fun n => day n.createdAt == day now)

/-! ## Sync poller (SyncService) -/

/-- Observable state of the sync service: whether an interval timer is
armed, the `config.enabled` flag, and how many order fetches are currently
in flight. -/
structure SyncState where
  hasTimer : Bool
  enabled : Bool
  inFlight : Nat
deriving Repr, DecidableEq

/-- `stop()`: when a timer is armed, clear it and set `enabled := false`;
otherwise do nothing. In-flight fetches are not aborted. -/
def stopSvc (s : SyncState) : SyncState :=
  if s.hasTimer then { s with hasTimer := false, enabled := false } else s

/-- The body of `syncOrders()` up to its suspension point: return
immediately when disabled, otherwise issue a fetch (one more request in
flight). There is no check on fetches already in flight. -/
def syncOrdersCall (s : SyncState) : SyncState :=
  if s.enabled then { s with inFlight := s.inFlight + 1 } else s

/-- `start(config)`: set `enabled := true`, call `stop()` if a timer is
armed, run an initial `syncOrders()`, and arm the interval. -/
def startSvc (s : SyncState) : SyncState :=
  let s1 := { s with enabled := true }
  let s2 := if s1.hasTimer then stopSvc s1 else s1
  let s3 := syncOrdersCall s2
  { s3 with hasTimer := true }

/-- One interval tick: the timer callback just calls `syncOrders()`. -/
def tickSvc (s : SyncState) : SyncState :=
  syncOrdersCall s

/-- Completion of one outstanding fetch. -/
def completeFetch (s : SyncState) : SyncState :=
  { s with inFlight := s.inFlight - 1 }

/-! ## Concrete instances used by the claims -/

/-- Example product of spec §8: base 2000, size delta +500 on the chosen
size, two available toppings priced 100 and 150. -/
def exProduct : Product :=
  { pid := "p1"
    name := "Shawarma Poulet"
    basePrice := 2000
    sizeVariations := [⟨"M", "Moyen", 0, true⟩, ⟨"L", "Grand", 500, true⟩]
    toppings := [⟨"t1", "Fromage", 100, true⟩, ⟨"t2", "Sauce", 150, true⟩]
    available := true }

/-- Example zone with fee 500 serving Douala/Akwa. -/
def exZone : DeliveryZone :=
  { name := "Zone Centre"
    cities := ["Douala"]
    neighborhoods := [⟨"Akwa", "Douala", true⟩]
    deliveryFee := 500
    estimatedTime := 30
    available := true }

/-- Example delivery address in Douala/Akwa. -/
def exAddr : DeliveryAddress :=
  ⟨"Rue 12 Akwa", "Akwa", "Douala", "690000000"⟩

/-- Example cart of spec §8: one item, size `L`, both toppings, quantity 2. -/
def exItems : List OrderItemReq :=
  [⟨"p1", 2, "L", ["t1", "t2"]⟩]

/-- The order the handler builds for the example cart. -/
def exOrder : Order :=
  { items :=
      [{ product := "p1"
         productName := "Shawarma Poulet"
         productPrice := 2000
         quantity := 2
         size := "L"
         selectedToppings := [⟨"Fromage", 100⟩, ⟨"Sauce", 150⟩]
         itemTotal := 5500 }]
    subtotal := 5500
    deliveryFee := 500
    total := 6000
    status := .pending
    deliveryAddress := exAddr
    actualDeliveryTime := none }

/-! ## Helper lemmas on the order-assembly functions -/

/-- Sum of the prices of the selected toppings that are found in the
product's embedded list and available (the pricing contribution the spec
describes). -/
def selectedToppingsSum (p : Product) (ids : List String) : Nat :=
  (ids.map (fun toppingId =>
    match p.toppings.find? (fun t => t.tid == toppingId) with
    | some t => if t.available then t.price else 0
    | none => 0)).sum

theorem selectedToppingsSum_cons (p : Product) (x : String) (rest : List String) :
    selectedToppingsSum p (x :: rest) =
      (match p.toppings.find? (fun t => t.tid == x) with
        | some t => if t.available then t.price else 0
        | none => 0) + selectedToppingsSum p rest := by
  simp [selectedToppingsSum]

theorem toppingsSelection_fst (p : Product) (ids : List String) :
    (toppingsSelection p ids).1 = selectedToppingsSum p ids := by
  induction ids with
  | nil => rfl
  | cons x rest ih =>
    rw [selectedToppingsSum_cons]
    unfold toppingsSelection
    cases h : p.toppings.find? (fun t => t.tid == x) with
    | none => simpa using ih
    | some t =>
      by_cases ha : t.available = true
      · simp [ha, ih]
      · simp [ha, ih]

theorem processItem_ok_spec (catalog : List Product) (item : OrderItemReq)
    (oi : OrderItem) (h : processItem catalog item = .ok oi) :
    ∃ p sv, findProduct catalog item.productId = some p ∧
      p.available = true ∧
      p.sizeVariations.find? (fun s => s.size == item.size) = some sv ∧
      sv.available = true ∧
      oi.quantity = item.quantity ∧
      oi.selectedToppings = (toppingsSelection p item.selectedToppings).2 ∧
      oi.itemTotal =
        (p.basePrice + sv.price + selectedToppingsSum p item.selectedToppings)
          * item.quantity := by
  unfold processItem at h
  split at h
  next hp => cases h
  next p hp =>
    split at h
    next hav => cases h
    next hav =>
      split at h
      next hsv => cases h
      next sv hsv =>
        split at h
        next hsva => cases h
        next hsva =>
          simp only [Bool.not_eq_true', Bool.not_eq_false] at hav hsva
          refine ⟨p, sv, hp, hav, hsv, hsva, ?_⟩
          cases h with
          | refl => exact ⟨rfl, rfl, by simp [toppingsSelection_fst]⟩

theorem processItems_mem (catalog : List Product) (items : List OrderItemReq)
    (l : List OrderItem) (h : processItems catalog items = .ok l) :
    ∀ oi ∈ l, ∃ req ∈ items, processItem catalog req = .ok oi := by
  induction items generalizing l with
  | nil =>
    unfold processItems at h
    cases h with
    | refl => intro oi hoi; exact absurd hoi (by simp)
  | cons item rest ih =>
    unfold processItems at h
    cases hi : processItem catalog item with
    | error e => rw [hi] at h; cases h
    | ok oi0 =>
      rw [hi] at h
      cases hr : processItems catalog rest with
      | error e => rw [hr] at h; cases h
      | ok l0 =>
        rw [hr] at h
        cases h with
        | refl =>
          intro oi hoi
          rcases List.mem_cons.mp hoi with he | hm
          · subst he; exact ⟨item, List.mem_cons_self .., hi⟩
          · rcases ih l0 hr oi hm with ⟨req, hreq, hpe⟩
            exact ⟨req, List.mem_cons_of_mem _ hreq, hpe⟩

theorem createOrder_ok_spec (catalog : List Product) (zones : List DeliveryZone)
    (items : List OrderItemReq) (addr : DeliveryAddress) (o : Order)
    (h : createOrder catalog zones items addr = .ok o) :
    ∃ zone, processItems catalog items = .ok o.items ∧
      findOneZone zones addr.city addr.neighborhood = some zone ∧
      o.deliveryFee = zone.deliveryFee ∧
      o.subtotal = (o.items.map (fun oi => oi.itemTotal)).sum ∧
      o.total = o.subtotal + o.deliveryFee := by
  unfold createOrder at h
  cases hpi : processItems catalog items with
  | error e => rw [hpi] at h; cases h
  | ok l =>
    rw [hpi] at h
    cases hz : findOneZone zones addr.city addr.neighborhood with
    | none => rw [hz] at h; cases h
    | some zone =>
      rw [hz] at h
      cases h with
      | refl => exact ⟨zone, rfl, rfl, rfl, rfl, rfl⟩

/-! ## The claims -/

/-- Claim C1: for every successfully created order, each item's line total
is (base price + chosen size delta + sum of the prices of the selected
toppings that were found and available) times the quantity, the subtotal is
the sum of the line totals, and the total is subtotal + the fee of the
delivery zone resolved for the order's (city, neighborhood) — never a
default value; on the spec's example cart (base 2000, size delta 500,
toppings 100 and 150, quantity 2, zone fee 500) the subtotal is 5500 and
the total 6000. -/
theorem claim_C1 :
    (∀ catalog zones items addr o,
      createOrder catalog zones items addr = .ok o →
      o.subtotal = (o.items.map (fun oi => oi.itemTotal)).sum ∧
      o.total = o.subtotal + o.deliveryFee ∧
      (∃ zone, findOneZone zones addr.city addr.neighborhood = some zone ∧
        o.deliveryFee = zone.deliveryFee) ∧
      ∀ oi ∈ o.items, ∃ req p sv, req ∈ items ∧
        findProduct catalog req.productId = some p ∧
        p.sizeVariations.find? (fun s => s.size == req.size) = some sv ∧
        oi.itemTotal =
          (p.basePrice + sv.price + selectedToppingsSum p req.selectedToppings)
            * req.quantity)
    ∧ createOrder [exProduct] [exZone] exItems exAddr = .ok exOrder
    ∧ exOrder.subtotal = 5500 ∧ exOrder.total = 6000 := by
  refine ⟨?_, rfl, rfl, rfl⟩
  intro catalog zones items addr o h
  rcases createOrder_ok_spec catalog zones items addr o h with
    ⟨zone, hpi, hz, hfee, hsub, htot⟩
  refine ⟨hsub, htot, ⟨zone, hz, hfee⟩, ?_⟩
  intro oi hoi
  rcases processItems_mem catalog items o.items hpi oi hoi with ⟨req, hreq, hpe⟩
  rcases processItem_ok_spec catalog req oi hpe with
    ⟨p, sv, hp, hpav, hsv, hsva, hq, hsel, hit⟩
  exact ⟨req, p, sv, hreq, hp, hsv, hit⟩

/-- Claim C1 witness: the pricing invariants instantiated on the spec's
example cart. -/
theorem claim_C1_witness :
    exOrder.subtotal = (exOrder.items.map (fun oi => oi.itemTotal)).sum ∧
    exOrder.total = exOrder.subtotal + exOrder.deliveryFee ∧
    (∃ zone, findOneZone [exZone] exAddr.city exAddr.neighborhood = some zone ∧
      exOrder.deliveryFee = zone.deliveryFee) ∧
    ∀ oi ∈ exOrder.items, ∃ req p sv, req ∈ exItems ∧
      findProduct [exProduct] req.productId = some p ∧
      p.sizeVariations.find? (fun s => s.size == req.size) = some sv ∧
      oi.itemTotal =
        (p.basePrice + sv.price + selectedToppingsSum p req.selectedToppings)
          * req.quantity :=
  claim_C1.1 [exProduct] [exZone] exItems exAddr exOrder (by rfl)

/-- Zone exhibiting the missing-`$elemMatch` behavior: the requested
neighborhood Akwa exists but is unavailable, while a different neighborhood
(Bonanjo) supplies the `neighborhoods.available: true` condition. -/
def zSplit : DeliveryZone :=
  { name := "Zone C"
    cities := ["Douala"]
    neighborhoods := [⟨"Akwa", "Douala", false⟩, ⟨"Bonanjo", "Douala", true⟩]
    deliveryFee := 800
    estimatedTime := 25
    available := true }

/-- Claim C2: the calculate-fee query succeeds on a collection in which no
zone has a single neighborhood entry matching (Douala, Akwa, available),
because the dotted-path conditions of the Mongo filter are satisfied by
different array elements (`zoneMatches`), whereas the documented contract
(`zoneServes`) requires one matching entry; resolution was supposed to fail
with NotServiceable here. -/
theorem claim_C2 :
    ([zSplit].all (fun z => !(zoneServes z "Douala" "Akwa"))) = true
    ∧ calculateFee [zSplit] "Douala" "Akwa" = some ⟨800, 25, "Zone C"⟩ := by
  exact ⟨rfl, rfl⟩

/-- Zone A: the only zone with an available (Douala, Akwa) entry. -/
def zA : DeliveryZone :=
  { name := "Zone A"
    cities := ["Douala"]
    neighborhoods := [⟨"Akwa", "Douala", true⟩]
    deliveryFee := 700
    estimatedTime := 20
    available := true }

/-- Zone B: shares the city Douala, has an unavailable Akwa entry and an
available entry of another name, and precedes zone A in the collection. -/
def zB : DeliveryZone :=
  { name := "Zone B"
    cities := ["Douala"]
    neighborhoods := [⟨"Akwa", "Douala", false⟩, ⟨"Deido", "Douala", true⟩]
    deliveryFee := 1000
    estimatedTime := 40
    available := true }

/-- Zone X of the spec's example: covers Douala/Akwa. -/
def zX : DeliveryZone :=
  { name := "Zone X"
    cities := ["Douala"]
    neighborhoods := [⟨"Akwa", "Douala", true⟩]
    deliveryFee := 600
    estimatedTime := 15
    available := true }

/-- Zone Y of the spec's example: covers Douala/Bonanjo. -/
def zY : DeliveryZone :=
  { name := "Zone Y"
    cities := ["Douala"]
    neighborhoods := [⟨"Bonanjo", "Douala", true⟩]
    deliveryFee := 900
    estimatedTime := 35
    available := true }

/-- Claim C3: the spec's own X/Y example does hold (zone Y never matches,
in either collection order), but the general statement fails: zone A is the
only zone with an available (Douala, Akwa) neighborhood entry, yet with
zone B first in the collection the query returns zone B's fee 1000 instead
of zone A's 700, because B passes the per-field filter through two
different neighborhood entries. -/
theorem claim_C3 :
    calculateFee [zX, zY] "Douala" "Akwa" = some ⟨600, 15, "Zone X"⟩
    ∧ calculateFee [zY, zX] "Douala" "Akwa" = some ⟨600, 15, "Zone X"⟩
    ∧ zoneServes zB "Douala" "Akwa" = false
    ∧ zoneServes zA "Douala" "Akwa" = true
    ∧ calculateFee [zB, zA] "Douala" "Akwa" = some ⟨1000, 40, "Zone B"⟩ := by
  exact ⟨rfl, rfl, rfl, rfl, rfl⟩

/-- A product whose overall availability flag is false and whose only size
variation is itself unavailable. -/
def pUnavail : Product :=
  { pid := "p9"
    name := "Kebab Maison"
    basePrice := 2000
    sizeVariations := [⟨"L", "Grand", 500, false⟩]
    toppings := []
    available := false }

/-- An available product with one available and one unavailable size. -/
def pAvail : Product :=
  { pid := "p2"
    name := "Tacos"
    basePrice := 1500
    sizeVariations := [⟨"S", "Petit", 0, true⟩, ⟨"XL", "Geant", 700, false⟩]
    toppings := []
    available := true }

/-- Claim C4 counterexample: the chosen size `L` matches a size variation
whose available flag is false, yet because the product's own availability
flag is also false the handler fails with the product-unavailable error
(checked first), not with SizeUnavailable — refuting "regardless of the
product's own overall availability". -/
theorem claim_C4_cex :
    ((pUnavail.sizeVariations.find? (fun sv => sv.size == "L")).map
      (fun sv => sv.available)) = some false
    ∧ createOrder [pUnavail] [exZone] [⟨"p9", 1, "L", []⟩] exAddr
        = .error (.productUnavailable "Kebab Maison") :=
  ⟨rfl, rfl⟩

/-- Claim C4 (amended): when the referenced product is available, an item
whose chosen size matches an individually unavailable variation fails with
SizeUnavailable; when the product itself is unavailable, the
ProductUnavailable error takes precedence over any size check; and a size
matching no variation fails with the error enumerating the product's size
identifiers. -/
theorem claim_C4 (catalog : List Product) (item : OrderItemReq) (p : Product)
    (hp : findProduct catalog item.productId = some p) :
    (p.available = false →
      processItem catalog item = .error (.productUnavailable p.name))
    ∧ (p.available = true →
        ∀ sv, p.sizeVariations.find? (fun s => s.size == item.size) = some sv →
          sv.available = false →
          processItem catalog item = .error (.sizeUnavailable item.size p.name))
    ∧ (p.available = true →
        p.sizeVariations.find? (fun s => s.size == item.size) = none →
        processItem catalog item = .error
          (.sizeNotFound item.size p.name
            (p.sizeVariations.map (fun sv => sv.size)))) := by
  refine ⟨?_, ?_, ?_⟩
  · intro hav
    unfold processItem
    rw [hp]
    simp [hav]
  · intro hav sv hsv hsva
    unfold processItem
    rw [hp]
    simp [hav, hsv, hsva]
  · intro hav hsv
    unfold processItem
    rw [hp]
    simp [hav, hsv]

/-- Claim C4 witness: the three amended branches on concrete products. -/
theorem claim_C4_witness :
    processItem [pUnavail] ⟨"p9", 1, "L", []⟩
      = .error (.productUnavailable "Kebab Maison")
    ∧ processItem [pAvail] ⟨"p2", 1, "XL", []⟩
      = .error (.sizeUnavailable "XL" "Tacos")
    ∧ processItem [pAvail] ⟨"p2", 1, "M", []⟩
      = .error (.sizeNotFound "M" "Tacos" ["S", "XL"]) :=
  ⟨(claim_C4 [pUnavail] ⟨"p9", 1, "L", []⟩ pUnavail rfl).1 rfl,
   (claim_C4 [pAvail] ⟨"p2", 1, "XL", []⟩ pAvail rfl).2.1 rfl
     ⟨"XL", "Geant", 700, false⟩ rfl rfl,
   (claim_C4 [pAvail] ⟨"p2", 1, "M", []⟩ pAvail rfl).2.2 rfl rfl⟩

/-- A delivered order (the fields other than status are arbitrary). -/
def deliveredOrder : Order :=
  { items := []
    subtotal := 0
    deliveryFee := 500
    total := 500
    status := .delivered
    deliveryAddress := exAddr
    actualDeliveryTime := some 1000 }

/-- A cancelled order. -/
def cancelledOrder : Order :=
  { items := []
    subtotal := 0
    deliveryFee := 500
    total := 500
    status := .cancelled
    deliveryAddress := exAddr
    actualDeliveryTime := none }

/-- Claim C5 counterexample: the status-update operation moves an order
whose status is `delivered` to `pending`, and one whose status is
`cancelled` to `confirmed` — `delivered` and `cancelled` are not terminal
under the implemented transition operation. -/
theorem claim_C5_cex :
    deliveredOrder.status = .delivered
    ∧ (updateOrderStatus deliveredOrder .pending 2000).status = .pending
    ∧ cancelledOrder.status = .cancelled
    ∧ (updateOrderStatus cancelledOrder .confirmed 2000).status = .confirmed :=
  ⟨rfl, rfl, rfl, rfl⟩

/-- Claim C5 (amended): the transition operation applies any requested
target status unconditionally to every order — including orders whose
current status is `delivered` or `cancelled`; no terminality (and no
canonical forward order) is enforced. -/
theorem claim_C5 (o : Order) (target : OrderStatus) (now : Int) :
    (updateOrderStatus o target now).status = target := rfl

/-- Claim C6: every transition into `delivered` stamps
`actualDeliveryTime = now`, and a transition into `cancelled` leaves
`actualDeliveryTime` exactly as it was (never sets it). -/
theorem claim_C6 (o : Order) (target : OrderStatus) (now : Int) :
    (target = .delivered →
      (updateOrderStatus o target now).actualDeliveryTime = some now)
    ∧ (target = .cancelled →
        (updateOrderStatus o target now).actualDeliveryTime
          = o.actualDeliveryTime) := by
  constructor
  · intro h
    subst h
    simp [updateOrderStatus]
  · intro h
    subst h
    simp [updateOrderStatus]

/-- Claim C6 witness: both behaviors on a concrete order. -/
theorem claim_C6_witness :
    (updateOrderStatus cancelledOrder .delivered 9000).actualDeliveryTime
      = some 9000
    ∧ (updateOrderStatus deliveredOrder .cancelled 9000).actualDeliveryTime
      = deliveredOrder.actualDeliveryTime :=
  ⟨(claim_C6 cancelledOrder .delivered 9000).1 rfl,
   (claim_C6 deliveredOrder .cancelled 9000).2 rfl⟩

/-- When no entry of the list carries the candidate's (order number, type)
pair, the duplicate check fails whatever the clock says. -/
theorem isDuplicate_false_of_no_pair (st : List Notification) (d : NotifInput)
    (now : Int)
    (h : ∀ n ∈ st,
      (n.orderNumber == d.orderNumber && n.ntype == d.ntype) = false) :
    isDuplicate st d now = false := by
  unfold isDuplicate
  rw [List.any_eq_false]
  intro n hn hc
  simp only [Bool.and_eq_true, decide_eq_true_eq] at hc
  have hpair := h n hn
  rw [hc.1.1, hc.1.2] at hpair
  simp at hpair

/-- Recording a candidate whose pair is fresh prepends the new entry. -/
theorem addNotification_records (role uid : String) (st : List Notification)
    (d : NotifInput) (now : Int)
    (hshow : shouldShow role uid d = true)
    (hdup : isDuplicate st d now = false) :
    addNotification role uid st d now = mkNotification d now :: st := by
  unfold addNotification
  rw [hshow, hdup]
  simp

/-- Claim C7: starting from a list with no entry for the pair, a first
notification that passes role targeting is recorded; a second one with the
same order number and type raised less than 60 s later is suppressed,
leaving exactly one entry for the pair; and a candidate raised more than
60 s after that recorded entry is recorded again. -/
theorem claim_C7 (role uid : String) (st : List Notification)
    (d1 d2 : NotifInput) (t1 t2 t3 : Int)
    (hnum : d2.orderNumber = d1.orderNumber) (hty : d2.ntype = d1.ntype)
    (hfresh : st.countP
      (fun n => n.orderNumber == d1.orderNumber && n.ntype == d1.ntype) = 0)
    (hshow1 : shouldShow role uid d1 = true)
    (h12 : t1 ≤ t2) (ht12 : t2 < t1 + 60000)
    (ht3 : t1 + 60000 < t3)
    (hshow2 : shouldShow role uid d2 = true) :
    addNotification role uid st d1 t1 = mkNotification d1 t1 :: st
    ∧ addNotification role uid (mkNotification d1 t1 :: st) d2 t2
        = mkNotification d1 t1 :: st
    ∧ (mkNotification d1 t1 :: st).countP
        (fun n => n.orderNumber == d1.orderNumber && n.ntype == d1.ntype) = 1
    ∧ addNotification role uid (mkNotification d1 t1 :: st) d2 t3
        = mkNotification d2 t3 :: mkNotification d1 t1 :: st := by
  have hpair1 : ∀ n ∈ st,
      (n.orderNumber == d1.orderNumber && n.ntype == d1.ntype) = false := by
    intro n hn
    exact Bool.eq_false_iff.mpr (List.countP_eq_zero.mp hfresh n hn)
  have hpair2 : ∀ n ∈ st,
      (n.orderNumber == d2.orderNumber && n.ntype == d2.ntype) = false := by
    intro n hn
    rw [hnum, hty]
    exact hpair1 n hn
  have hdup1 : isDuplicate st d1 t1 = false :=
    isDuplicate_false_of_no_pair st d1 t1 hpair1
  have hrec1 : addNotification role uid st d1 t1 = mkNotification d1 t1 :: st :=
    addNotification_records role uid st d1 t1 hshow1 hdup1
  have hdup2 : isDuplicate (mkNotification d1 t1 :: st) d2 t2 = true := by
    unfold isDuplicate
    rw [List.any_cons]
    have htime : t1 > t2 - 60000 := by omega
    simp [mkNotification, hnum, hty, htime]
  have hsupp : addNotification role uid (mkNotification d1 t1 :: st) d2 t2
      = mkNotification d1 t1 :: st := by
    unfold addNotification
    rw [hshow2, hdup2]
    simp
  have hcount : (mkNotification d1 t1 :: st).countP
      (fun n => n.orderNumber == d1.orderNumber && n.ntype == d1.ntype) = 1 := by
    rw [List.countP_cons]
    simp [mkNotification, hfresh]
  have hdup3 : isDuplicate (mkNotification d1 t1 :: st) d2 t3 = false := by
    unfold isDuplicate
    rw [List.any_cons]
    have htime : ¬(t1 > t3 - 60000) := by omega
    have htail : st.any (fun n =>
        n.orderNumber == d2.orderNumber && n.ntype == d2.ntype
          && n.createdAt > t3 - 60000) = false := by
      have := isDuplicate_false_of_no_pair st d2 t3 hpair2
      unfold isDuplicate at this
      exact this
    simp [mkNotification, htime, htail]
  have hrec3 : addNotification role uid (mkNotification d1 t1 :: st) d2 t3
      = mkNotification d2 t3 :: mkNotification d1 t1 :: st :=
    addNotification_records role uid (mkNotification d1 t1 :: st) d2 t3
      hshow2 hdup3
  exact ⟨hrec1, hsupp, hcount, hrec3⟩

/-- Concrete notification candidate used by the claim C7 witness. -/
def dOrderPlaced : NotifInput :=
  { ntype := "order_placed"
    title := "Nouvelle commande"
    message := "SH001 placee"
    orderNumber := some "SH001"
    userId := none
    targetRole := some "all"
    priority := "high" }

/-- Claim C7 witness: on an empty list, the first candidate at t = 0 is
recorded, a duplicate at t = 59999 is suppressed leaving one entry for the
pair, and a candidate at t = 60001 is recorded. -/
theorem claim_C7_witness :
    addNotification "customer" "u1" [] dOrderPlaced 0
      = [mkNotification dOrderPlaced 0]
    ∧ addNotification "customer" "u1" [mkNotification dOrderPlaced 0]
        dOrderPlaced 59999 = [mkNotification dOrderPlaced 0]
    ∧ ([mkNotification dOrderPlaced 0]).countP
        (fun n => n.orderNumber == dOrderPlaced.orderNumber
          && n.ntype == dOrderPlaced.ntype) = 1
    ∧ addNotification "customer" "u1" [mkNotification dOrderPlaced 0]
        dOrderPlaced 60001
      = [mkNotification dOrderPlaced 60001, mkNotification dOrderPlaced 0] :=
  claim_C7 "customer" "u1" [] dOrderPlaced dOrderPlaced 0 59999 60001
    rfl rfl rfl (by decide) (by decide) (by decide) (by decide) (by decide)

/-- Start of the calendar day of a millisecond timestamp, expressed as a
day index (a concrete instance of the `day` parameter of the pruning
functions). -/
def dayMs (t : Int) : Int := t / 86400000

/-- A notification created on the previous calendar day (day 0). -/
def staleN : Notification :=
  { nid := 0
    ntype := "order_placed"
    title := "T"
    message := "M"
    orderNumber := some "SH000"
    isRead := false
    createdAt := 0
    userId := none
    targetRole := some "all"
    priority := "low" }

/-- The i-th of the current-day notifications filling the list. -/
def todayN (i : Nat) : Notification :=
  { nid := (i : Int)
    ntype := "order_status_changed"
    title := "T"
    message := "M"
    orderNumber := some (toString i)
    isRead := false
    createdAt := 86400000 + (i : Int)
    userId := none
    targetRole := some "all"
    priority := "low" }

/-- A 50-entry list: one stale entry (left over because no sweep has run
since midnight) and 49 current-day entries. -/
def st50 : List Notification :=
  staleN :: (List.range 49).map todayN

/-- A fresh candidate with a pair not in `st50`. -/
def dNew : NotifInput :=
  { ntype := "order_placed"
    title := "T"
    message := "M"
    orderNumber := some "SHNEW"
    userId := none
    targetRole := some "all"
    priority := "high" }

/-- The current time for the claim C8 counterexample (day 1). -/
def nowC8 : Int := 86400000 + 100000

/-- Claim C8 counterexample: `addNotification` (the list mutation) neither
prunes to the current day nor re-applies the 50-entry cap — after inserting
into a 50-entry list the list has 51 entries and still contains an entry
from the previous calendar day. -/
theorem claim_C8_cex :
    st50.length = 50
    ∧ (addNotification "admin" "u1" st50 dNew nowC8).length = 51
    ∧ staleN ∈ addNotification "admin" "u1" st50 dNew nowC8
    ∧ dayMs staleN.createdAt ≠ dayMs nowC8 := by
  have h : addNotification "admin" "u1" st50 dNew nowC8
      = mkNotification dNew nowC8 :: st50 := by rfl
  refine ⟨by rfl, ?_, ?_, by decide⟩
  · rw [h]
    rfl
  · rw [h]
    exact List.mem_cons_of_mem _ (List.mem_cons_self ..)

/-- Claim C8 (amended): the initial load prunes to the current calendar day
and truncates to at most 50 entries, and each periodic sweep leaves only
current-day entries; mutations of the list do not re-prune, so neither
bound is re-established by `addNotification` (see the counterexample). -/
theorem claim_C8 (day : Int → Int) (parsed notifs : List Notification)
    (now : Int) :
    (loadNotifications day parsed now).length ≤ 50
    ∧ (∀ n ∈ loadNotifications day parsed now, day n.createdAt = day now)
    ∧ (∀ n ∈ cleanupSweep day notifs now, day n.createdAt = day now) := by
  refine ⟨?_, ?_, ?_⟩
  · unfold loadNotifications
    exact List.length_take_le ..
  · intro n hn
    unfold loadNotifications at hn
    have hmem := List.mem_of_mem_take hn
    have hf := List.mem_filter.mp hmem
    exact beq_iff_eq.mp hf.2
  · intro n hn
    unfold cleanupSweep at hn
    have hf := List.mem_filter.mp hn
    exact beq_iff_eq.mp hf.2

/-- Claim C8 witness: the amended guarantees instantiated on concrete
lists and the concrete day function. -/
theorem claim_C8_witness :
    (loadNotifications dayMs [todayN 0, staleN] nowC8).length ≤ 50
    ∧ dayMs (todayN 0).createdAt = dayMs nowC8 :=
  ⟨(claim_C8 dayMs [todayN 0, staleN] [] nowC8).1,
   (claim_C8 dayMs [] [todayN 0, staleN] nowC8).2.2 (todayN 0) (by decide)⟩

/-- Claim C9 counterexample: from a fresh service, `start` issues the
initial fetch; a tick that fires before that fetch completes issues a
second one — two fetches are then in flight, instead of the tick being
skipped. -/
theorem claim_C9_cex :
    (startSvc ⟨false, false, 0⟩).inFlight = 1
    ∧ (tickSvc (startSvc ⟨false, false, 0⟩)).inFlight = 2 :=
  ⟨rfl, rfl⟩

/-- Claim C9 (amended): a tick is skipped exactly when the service is
disabled (stopped); while it is enabled every tick issues a fetch
regardless of fetches already in flight, so n ticks with no completion in
between leave n more fetches in flight — in-flight concurrency is not
limited to one. -/
theorem claim_C9 (s : SyncState) :
    (s.enabled = false → tickSvc s = s)
    ∧ (s.enabled = true → ∀ n : Nat,
        (tickSvc^[n] s).inFlight = s.inFlight + n
          ∧ (tickSvc^[n] s).enabled = true) := by
  constructor
  · intro h
    unfold tickSvc syncOrdersCall
    rw [h]
    simp
  · intro h n
    have step : ∀ u : SyncState, u.enabled = true →
        tickSvc u = ⟨u.hasTimer, u.enabled, u.inFlight + 1⟩ := by
      intro u hu
      unfold tickSvc syncOrdersCall
      rw [hu]
      simp
    induction n with
    | zero => simpa using h
    | succ k ih =>
      rcases ih with ⟨h1, h2⟩
      rw [Function.iterate_succ_apply', step _ h2]
      exact ⟨by dsimp; omega, by dsimp; exact h2⟩

/-- Claim C9 witness: a stopped service skips ticks; three ticks on an
enabled idle service leave three fetches in flight. -/
theorem claim_C9_witness :
    tickSvc ⟨true, false, 0⟩ = ⟨true, false, 0⟩
    ∧ (tickSvc^[3] ⟨false, true, 0⟩).inFlight = 0 + 3 :=
  ⟨(claim_C9 ⟨true, false, 0⟩).1 rfl,
   ((claim_C9 ⟨false, true, 0⟩).2 rfl 3).1⟩

/-- Replacing one request item by another with the same per-item outcome
leaves the whole loop's outcome unchanged. -/
theorem processItems_congr_one (catalog : List Product) (a b : OrderItemReq)
    (hab : processItem catalog a = processItem catalog b)
    (reqs1 reqs2 : List OrderItemReq) :
    processItems catalog (reqs1 ++ a :: reqs2)
      = processItems catalog (reqs1 ++ b :: reqs2) := by
  induction reqs1 with
  | nil =>
    show processItems catalog (a :: reqs2) = processItems catalog (b :: reqs2)
    unfold processItems
    rw [hab]
  | cons x rest ih =>
    show processItems catalog (x :: (rest ++ a :: reqs2))
      = processItems catalog (x :: (rest ++ b :: reqs2))
    unfold processItems
    rw [ih]

/-- Claim C10: a selected topping id that resolves within the product's
embedded topping list to an unavailable topping is silently dropped — the
toppings pricing pass returns the same price sum and the same captured
list as if the id were absent, the per-item outcome is unchanged (so the id
never causes a failure and the topping never appears on the order item),
and order creation as a whole is unchanged. -/
theorem claim_C10 (catalog : List Product) (pid : String) (q : Nat)
    (sz : String) (p : Product) (t : Topping) (toppingId : String)
    (ids1 ids2 : List String)
    (hp : findProduct catalog pid = some p)
    (ht : p.toppings.find? (fun tt => tt.tid == toppingId) = some t)
    (hna : t.available = false) :
    toppingsSelection p (ids1 ++ toppingId :: ids2)
      = toppingsSelection p (ids1 ++ ids2)
    ∧ processItem catalog ⟨pid, q, sz, ids1 ++ toppingId :: ids2⟩
        = processItem catalog ⟨pid, q, sz, ids1 ++ ids2⟩
    ∧ ∀ zones addr reqs1 reqs2,
        createOrder catalog zones
          (reqs1 ++ ⟨pid, q, sz, ids1 ++ toppingId :: ids2⟩ :: reqs2) addr
        = createOrder catalog zones
          (reqs1 ++ ⟨pid, q, sz, ids1 ++ ids2⟩ :: reqs2) addr := by
  have hsel : toppingsSelection p (ids1 ++ toppingId :: ids2)
      = toppingsSelection p (ids1 ++ ids2) := by
    induction ids1 with
    | nil =>
      show toppingsSelection p (toppingId :: ids2) = toppingsSelection p ids2
      conv_lhs => rw [toppingsSelection]
      rw [ht]
      simp [hna]
    | cons x rest ih =>
      show toppingsSelection p (x :: (rest ++ toppingId :: ids2))
        = toppingsSelection p (x :: (rest ++ ids2))
      unfold toppingsSelection
      cases hfa : p.toppings.find? (fun tt => tt.tid == x) with
      | none => exact ih
      | some tx =>
        by_cases htx : tx.available = true
        · simp [htx, ih]
        · simp [htx, ih]
  have hitem : processItem catalog ⟨pid, q, sz, ids1 ++ toppingId :: ids2⟩
      = processItem catalog ⟨pid, q, sz, ids1 ++ ids2⟩ := by
    unfold processItem
    dsimp only
    rw [hp]
    dsimp only
    rw [hsel]
  refine ⟨hsel, hitem, ?_⟩
  intro zones addr reqs1 reqs2
  unfold createOrder
  rw [processItems_congr_one catalog _ _ hitem reqs1 reqs2]

/-- Product with an available topping `t1` and an unavailable topping `t9`,
used by the claim C10 witness. -/
def pTop : Product :=
  { pid := "p3"
    name := "Wrap"
    basePrice := 1000
    sizeVariations := [⟨"M", "Moyen", 0, true⟩]
    toppings := [⟨"t1", "Oignon", 50, true⟩, ⟨"t9", "Ananas", 200, false⟩]
    available := true }

/-- Claim C10 witness: selecting the unavailable topping `t9` alongside
`t1` changes nothing — not the pricing pass, not the item outcome, not the
created order. -/
theorem claim_C10_witness :
    toppingsSelection pTop ["t1", "t9"] = toppingsSelection pTop ["t1"]
    ∧ processItem [pTop] ⟨"p3", 1, "M", ["t1", "t9"]⟩
        = processItem [pTop] ⟨"p3", 1, "M", ["t1"]⟩
    ∧ createOrder [pTop] [exZone] [⟨"p3", 1, "M", ["t1", "t9"]⟩] exAddr
        = createOrder [pTop] [exZone] [⟨"p3", 1, "M", ["t1"]⟩] exAddr := by
  have h := claim_C10 [pTop] "p3" 1 "M" pTop ⟨"t9", "Ananas", 200, false⟩
    "t9" ["t1"] [] rfl rfl rfl
  exact ⟨h.1, h.2.1, h.2.2 [exZone] exAddr [] []⟩

end Shawarma
